import Mathlib

/-
Verification of the nboost proxy orchestrator (src/nboost/proxy/init file).

The development shallowly embeds the orchestrator: the track() timing
wrapper, the search / train / status pipeline closures, the routing-table
assembly handed to server.create_app, and the scoped enter/exit lifecycle.
Machine time (time.perf_counter) is modelled as a Nat clock threaded
through every call; a wrapped callable advances the clock and yields
either a plain value, an awaitable (whose await yields a value or
raises), or a synchronous raise, mirroring the three ways
res = f(*args); ret = await res if isawaitable(res) else res
can behave in Python.
-/

namespace NBoost

/-- A latency sample as forwarded to db.lap: milliseconds elapsed plus the
(ownerName, operationName) identity pair computed by track(). -/
structure Lap where
  ms : Nat
  owner : String
  op : String
  deriving DecidableEq, Repr

/-- Outcome of evaluating the raw callable inside track's decorator:
a plain non-awaitable value, an awaitable whose await yields a value or
raises, or a raise during the call itself. -/
inductive CallResult (eps beta : Type) where
  | sync : beta → CallResult eps beta
  | async : Except eps beta → CallResult eps beta
  | raise : eps → CallResult eps beta
  deriving Repr

/-- A callable as seen by track(): the optional owning class name
(the self attribute of a bound method), the function name, and its
behaviour as a clock-advancing computation. -/
structure TrackedFn (eps alpha beta : Type) where
  selfClass : Option String
  name : String
  run : alpha → Nat → CallResult eps beta × Nat

variable {eps alpha beta : Type}

/-- The identity pair computed at wrap time: the owning class name when f
is a bound method, else the Proxy class name, paired with f's name. -/
def identOf (proxyCls : String) (selfClass : Option String) (nm : String) :
    String × String :=
  (selfClass.getD proxyCls, nm)

/-- Identity pair of a wrapped callable. -/
def ident (proxyCls : String) (f : TrackedFn eps alpha beta) : String × String :=
  identOf proxyCls f.selfClass f.name

/-- Convenience constructor for a latency sample from an identity pair. -/
def lapOf (ms : Nat) (id : String × String) : Lap :=
  ⟨ms, id.1, id.2⟩

/-- One invocation of the decorator produced by track(f): record the start
clock, evaluate f, await the result when it is awaitable, and only if that
succeeded compute elapsed milliseconds and forward one sample to db.lap.
A raise from the call or from the await propagates before the lap line
runs. Returns the final result, the clock after the call, and the list of
samples forwarded to db.lap during this invocation. -/
def trackRun (proxyCls : String) (f : TrackedFn eps alpha beta) (a : alpha)
    (t : Nat) : Except eps beta × Nat × List Lap :=
  match f.run a t with
  | (CallResult.raise e, t2) => (Except.error e, t2, [])
  | (CallResult.async (Except.error e), t2) => (Except.error e, t2, [])
  | (CallResult.sync v, t2) =>
      (Except.ok v, t2, [lapOf ((t2 - t) * 1000) (ident proxyCls f)])
  | (CallResult.async (Except.ok v), t2) =>
      (Except.ok v, t2, [lapOf ((t2 - t) * 1000) (ident proxyCls f)])

/-- The awaited value of a call outcome, when it did not raise. -/
def awaitedOk : CallResult eps beta → Option beta
  | CallResult.sync v => some v
  | CallResult.async (Except.ok v) => some v
  | _ => none

/-- The error raised by a call outcome, when it raised (synchronously or
from the awaited awaitable). -/
def raisedErr : CallResult eps beta → Option eps
  | CallResult.raise e => some e
  | CallResult.async (Except.error e) => some e
  | _ => none

theorem trackRun_of_awaitedOk (proxyCls : String) (f : TrackedFn eps alpha beta)
    (a : alpha) (t : Nat) (v : beta) (res : CallResult eps beta) (t2 : Nat)
    (hr : f.run a t = (res, t2)) (hv : awaitedOk res = some v) :
    trackRun proxyCls f a t =
      (Except.ok v, t2, [lapOf ((t2 - t) * 1000) (ident proxyCls f)]) := by
  cases res with
  | sync w =>
      simp [awaitedOk] at hv
      subst hv
      simp [trackRun, hr]
  | async x =>
      cases x with
      | ok w =>
          simp [awaitedOk] at hv
          subst hv
          simp [trackRun, hr]
      | error e => simp [awaitedOk] at hv
  | raise e => simp [awaitedOk] at hv

theorem trackRun_of_raisedErr (proxyCls : String) (f : TrackedFn eps alpha beta)
    (a : alpha) (t : Nat) (e : eps) (res : CallResult eps beta) (t2 : Nat)
    (hr : f.run a t = (res, t2)) (he : raisedErr res = some e) :
    trackRun proxyCls f a t = (Except.error e, t2, []) := by
  cases res with
  | sync w => simp [raisedErr] at he
  | async x =>
      cases x with
      | ok w => simp [raisedErr] at he
      | error d =>
          simp [raisedErr] at he
          subst he
          simp [trackRun, hr]
  | raise d =>
      simp [raisedErr] at he
      subst he
      simp [trackRun, hr]

/-- Concrete wrapped callables used to evaluate the model at explicit
inputs: a bound method returning a plain value, a free function returning
an awaitable, and a method that raises. -/
def fSync : TrackedFn Nat Nat Nat :=
  ⟨some ("Codex"), "magnify", fun a t => (CallResult.sync (a + 1), t + 2)⟩

def fAsync : TrackedFn Nat Nat Nat :=
  ⟨none, "ask", fun a t => (CallResult.async (Except.ok (a * 2)), t + 3)⟩

def fRaise : TrackedFn Nat Nat Nat :=
  ⟨some ("Model"), "rank", fun _ t => (CallResult.raise 42, t + 1)⟩

/-- C5: for every callable and argument on which the call returns a value
v without raising — whether as a plain value or through an awaitable the
wrapper awaits — the tracked wrapper forwards one (elapsed ms, ownerName,
operationName) sample to db.lap and returns exactly v. -/
theorem track_success_transparent (proxyCls : String)
    (f : TrackedFn eps alpha beta) (a : alpha) (t : Nat) (v : beta)
    (h : (f.run a t).1 = CallResult.sync v ∨
         (f.run a t).1 = CallResult.async (Except.ok v)) :
    trackRun proxyCls f a t =
      (Except.ok v, (f.run a t).2,
        [lapOf (((f.run a t).2 - t) * 1000) (ident proxyCls f)]) := by
  rcases h with h | h <;>
    exact trackRun_of_awaitedOk proxyCls f a t v (f.run a t).1 (f.run a t).2
      rfl (by rw [h]; rfl)

theorem track_success_transparent_witness :
    trackRun ("Proxy") fSync 5 10 =
      (Except.ok 6, 12, [lapOf 2000 (("Codex"), ("magnify"))]) ∧
    trackRun ("Proxy") fAsync 5 10 =
      (Except.ok 10, 13, [lapOf 3000 (("Proxy"), ("ask"))]) :=
  ⟨track_success_transparent ("Proxy") fSync 5 10 6 (Or.inl rfl),
   track_success_transparent ("Proxy") fAsync 5 10 10 (Or.inr rfl)⟩

/-- C6: for every callable and argument on which the call raises e —
synchronously or from the awaited awaitable — the tracked wrapper
propagates exactly e: the result is the unaltered error, never a
substituted value. -/
theorem track_propagates_error (proxyCls : String)
    (f : TrackedFn eps alpha beta) (a : alpha) (t : Nat) (e : eps)
    (h : raisedErr (f.run a t).1 = some e) :
    (trackRun proxyCls f a t).1 = Except.error e := by
  rw [trackRun_of_raisedErr proxyCls f a t e (f.run a t).1 (f.run a t).2 rfl h]

theorem track_propagates_error_witness :
    (trackRun ("Proxy") fRaise 0 0).1 = Except.error 42 :=
  track_propagates_error ("Proxy") fRaise 0 0 42 rfl

/-- C1 counterexample: at a concrete raising callable, the tracked wrapper
forwards no latency sample at all — db.lap is on the line after the await,
so the failure propagates first. This refutes the claim that a sample is
forwarded in the failure case as well. -/
theorem track_failure_no_lap_cex :
    trackRun ("Proxy") fRaise 0 0 = (Except.error 42, 1, []) := rfl

/-- C1 amended: every tracked call forwards exactly one latency sample
(duration ms, ownerName, operationName) to db.lap when the wrapped call
returns successfully; when it raises, no sample is forwarded and the
error propagates unchanged. -/
theorem track_lap_success_only (proxyCls : String)
    (f : TrackedFn eps alpha beta) (a : alpha) (t : Nat) :
    (∀ v : beta, awaitedOk (f.run a t).1 = some v →
      (trackRun proxyCls f a t).2.2 =
        [lapOf (((f.run a t).2 - t) * 1000) (ident proxyCls f)]) ∧
    (∀ e : eps, raisedErr (f.run a t).1 = some e →
      (trackRun proxyCls f a t).2.2 = [] ∧
      (trackRun proxyCls f a t).1 = Except.error e) := by
  constructor
  · intro v hv
    rw [trackRun_of_awaitedOk proxyCls f a t v (f.run a t).1 (f.run a t).2 rfl hv]
  · intro e he
    rw [trackRun_of_raisedErr proxyCls f a t e (f.run a t).1 (f.run a t).2 rfl he]
    exact ⟨rfl, rfl⟩

theorem track_lap_success_only_witness :
    (trackRun ("Proxy") fAsync 5 10).2.2 = [lapOf 3000 (("Proxy"), ("ask"))] ∧
    (trackRun ("Proxy") fRaise 0 0).2.2 = [] :=
  ⟨(track_lap_success_only ("Proxy") fAsync 5 10).1 10 rfl,
   ((track_lap_success_only ("Proxy") fRaise 0 0).2 42 rfl).1⟩

/-- Sequencing of tracked awaited steps inside a pipeline closure: a step
that raised short-circuits the rest (the exception propagates out of the
async pipeline), otherwise the next step runs on the advanced clock and
the forwarded lap samples accumulate in order. -/
def stepBind {gam del : Type} (x : Except eps gam × Nat × List Lap)
    (k : gam → Nat → Except eps del × Nat × List Lap) :
    Except eps del × Nat × List Lap :=
  match x with
  | (Except.error e, t, ls) => (Except.error e, t, ls)
  | (Except.ok v, t, ls) =>
      match k v t with
      | (r, t2, ls2) => (r, t2, ls ++ ls2)

variable {Req Res Qu Ch Ra Qi Ci La Tr : Type}

/-- The body of the search pipeline closure: magnify the request, ask the
upstream, parse out (Query, Choices), rank, save, then pack the final
Response, each step wrapped by track(). -/
def searchBody (proxyCls : String)
    (magnify : TrackedFn eps Req Req)
    (ask : TrackedFn eps Req Res)
    (parse : TrackedFn eps (Req × Res) (Qu × Ch))
    (rank : TrackedFn eps (Qu × Ch) Ra)
    (save : TrackedFn eps (Qu × Ch) (Qi × List Ci))
    (pack : TrackedFn eps (Req × Res × Qu × Ch × Ra × Qi × List Ci) Res)
    (r1 : Req) (t0 : Nat) : Except eps Res × Nat × List Lap :=
  stepBind (trackRun proxyCls magnify r1 t0) (fun r2 t =>
  stepBind (trackRun proxyCls ask r2 t) (fun r3 t =>
  stepBind (trackRun proxyCls parse (r2, r3) t) (fun r4 t =>
  stepBind (trackRun proxyCls rank r4 t) (fun r5 t =>
  stepBind (trackRun proxyCls save r4 t) (fun r6 t =>
  trackRun proxyCls pack (r1, r3, r4.1, r4.2, r5, r6.1, r6.2) t)))))

/-- The body of the train pipeline closure: pluck (Qid, Cids) from the
request, get the saved (Query, Choices, Labels) from the db, await the
tracked model.train call discarding its value, then return codex.ack. -/
def trainBody (proxyCls : String)
    (pluck : TrackedFn eps Req (Qi × List Ci))
    (get : TrackedFn eps (Qi × List Ci) (Qu × Ch × La))
    (train : TrackedFn eps (Qu × Ch × La) Tr)
    (ack : TrackedFn eps (Qi × List Ci) Res)
    (r1 : Req) (t0 : Nat) : Except eps Res × Nat × List Lap :=
  stepBind (trackRun proxyCls pluck r1 t0) (fun r2 t =>
  stepBind (trackRun proxyCls get r2 t) (fun r3 t =>
  stepBind (trackRun proxyCls train r3 t) (fun _ t =>
  trackRun proxyCls ack r2 t)))

/-- C4: on the success path the search pipeline performs exactly the six
tracked steps magnify, ask, parse, rank, save, pack in that order — the
lap trace lists their six identities in sequence, each argument fed from
the previous step as specified — and the pipeline's value is exactly the
Response produced by pack. -/
theorem search_six_steps_in_order (proxyCls : String)
    (magnify : TrackedFn eps Req Req)
    (ask : TrackedFn eps Req Res)
    (parse : TrackedFn eps (Req × Res) (Qu × Ch))
    (rank : TrackedFn eps (Qu × Ch) Ra)
    (save : TrackedFn eps (Qu × Ch) (Qi × List Ci))
    (pack : TrackedFn eps (Req × Res × Qu × Ch × Ra × Qi × List Ci) Res)
    (r1 : Req) (r2 : Req) (r3 : Res) (r4 : Qu × Ch) (r5 : Ra)
    (r6 : Qi × List Ci) (r7 : Res)
    (s1 : CallResult eps Req) (s2 : CallResult eps Res)
    (s3 : CallResult eps (Qu × Ch)) (s4 : CallResult eps Ra)
    (s5 : CallResult eps (Qi × List Ci)) (s6 : CallResult eps Res)
    (t0 t1 t2 t3 t4 t5 t6 : Nat)
    (h1 : magnify.run r1 t0 = (s1, t1)) (a1 : awaitedOk s1 = some r2)
    (h2 : ask.run r2 t1 = (s2, t2)) (a2 : awaitedOk s2 = some r3)
    (h3 : parse.run (r2, r3) t2 = (s3, t3)) (a3 : awaitedOk s3 = some r4)
    (h4 : rank.run r4 t3 = (s4, t4)) (a4 : awaitedOk s4 = some r5)
    (h5 : save.run r4 t4 = (s5, t5)) (a5 : awaitedOk s5 = some r6)
    (h6 : pack.run (r1, r3, r4.1, r4.2, r5, r6.1, r6.2) t5 = (s6, t6))
    (a6 : awaitedOk s6 = some r7) :
    searchBody proxyCls magnify ask parse rank save pack r1 t0 =
      (Except.ok r7, t6,
       [lapOf ((t1 - t0) * 1000) (ident proxyCls magnify),
        lapOf ((t2 - t1) * 1000) (ident proxyCls ask),
        lapOf ((t3 - t2) * 1000) (ident proxyCls parse),
        lapOf ((t4 - t3) * 1000) (ident proxyCls rank),
        lapOf ((t5 - t4) * 1000) (ident proxyCls save),
        lapOf ((t6 - t5) * 1000) (ident proxyCls pack)]) := by
  have e1 := trackRun_of_awaitedOk proxyCls magnify r1 t0 r2 s1 t1 h1 a1
  have e2 := trackRun_of_awaitedOk proxyCls ask r2 t1 r3 s2 t2 h2 a2
  have e3 := trackRun_of_awaitedOk proxyCls parse (r2, r3) t2 r4 s3 t3 h3 a3
  have e4 := trackRun_of_awaitedOk proxyCls rank r4 t3 r5 s4 t4 h4 a4
  have e5 := trackRun_of_awaitedOk proxyCls save r4 t4 r6 s5 t5 h5 a5
  have e6 := trackRun_of_awaitedOk proxyCls pack (r1, r3, r4.1, r4.2, r5, r6.1, r6.2)
    t5 r7 s6 t6 h6 a6
  simp [searchBody, stepBind, e1, e2, e3, e4, e5, e6]

/-- Concrete collaborator callables for evaluating the search pipeline. -/
def cMagnify : TrackedFn Nat Nat Nat :=
  ⟨some ("ESCodex"), "magnify", fun a t => (CallResult.sync (a * 10), t + 1)⟩

def cAsk : TrackedFn Nat Nat Nat :=
  ⟨some ("AioHttpServer"), "ask", fun a t => (CallResult.async (Except.ok (a + 7)), t + 4)⟩

def cParse : TrackedFn Nat (Nat × Nat) (Nat × Nat) :=
  ⟨some ("ESCodex"), "parse", fun a t => (CallResult.sync (a.1, a.2 + 1), t + 1)⟩

def cRank : TrackedFn Nat (Nat × Nat) Nat :=
  ⟨some ("TestModel"), "rank", fun a t => (CallResult.async (Except.ok (a.1 + a.2)), t + 5)⟩

def cSave : TrackedFn Nat (Nat × Nat) (Nat × List Nat) :=
  ⟨some ("HashDb"), "save", fun a t => (CallResult.sync (a.1, [a.2]), t + 2)⟩

def cPack : TrackedFn Nat (Nat × Nat × Nat × Nat × Nat × Nat × List Nat) Nat :=
  ⟨some ("ESCodex"), "pack", fun a t => (CallResult.sync (a.2.2.2.2.1), t + 1)⟩

theorem search_six_steps_in_order_witness :
    searchBody ("Proxy") cMagnify cAsk cParse cRank cSave cPack 2 0 =
      (Except.ok 48, 14,
       [lapOf 1000 (("ESCodex"), ("magnify")),
        lapOf 4000 (("AioHttpServer"), ("ask")),
        lapOf 1000 (("ESCodex"), ("parse")),
        lapOf 5000 (("TestModel"), ("rank")),
        lapOf 2000 (("HashDb"), ("save")),
        lapOf 1000 (("ESCodex"), ("pack"))]) := by
  exact search_six_steps_in_order ("Proxy") cMagnify cAsk cParse cRank cSave cPack
    2 20 27 (20, 28) 48 (20, [28]) 48
    (CallResult.sync 20) (CallResult.async (Except.ok 27)) (CallResult.sync (20, 28))
    (CallResult.async (Except.ok 48)) (CallResult.sync (20, [28])) (CallResult.sync 48)
    0 1 5 6 11 13 14
    rfl rfl rfl rfl rfl rfl rfl rfl rfl rfl rfl rfl

/-- Concrete collaborator callables for evaluating the train pipeline;
tTrainFail raises while tTrainOk completes, and tAck produces 99. -/
def tPluck : TrackedFn Nat Nat (Nat × List Nat) :=
  ⟨some ("ESCodex"), "pluck", fun _ t => (CallResult.sync (1, [2, 3]), t + 1)⟩

def tGet : TrackedFn Nat (Nat × List Nat) (Nat × Nat × Nat) :=
  ⟨some ("HashDb"), "get", fun _ t => (CallResult.async (Except.ok (4, 5, 6)), t + 1)⟩

def tTrainFail : TrackedFn Nat (Nat × Nat × Nat) Nat :=
  ⟨some ("TestModel"), "train", fun _ t => (CallResult.raise 7, t + 1)⟩

def tTrainOk : TrackedFn Nat (Nat × Nat × Nat) Nat :=
  ⟨some ("TestModel"), "train", fun _ t => (CallResult.async (Except.ok 0), t + 1)⟩

def tAck : TrackedFn Nat (Nat × List Nat) Nat :=
  ⟨some ("ESCodex"), "ack", fun _ t => (CallResult.sync 99, t + 1)⟩

/-- C3 counterexample: at a concrete input where pluck and get succeed but
the tracked model.train call raises, the train pipeline's value is the
propagated training error, not the Response that ack would produce — the
awaited train failure aborts the pipeline before ack runs. -/
theorem train_ack_despite_failure_cex :
    awaitedOk (tPluck.run 0 0).1 = some (1, [2, 3]) ∧
    awaitedOk (tGet.run (1, [2, 3]) 1).1 = some (4, 5, 6) ∧
    awaitedOk (tAck.run (1, [2, 3]) 3).1 = some 99 ∧
    (trainBody ("Proxy") tPluck tGet tTrainFail tAck 0 0).1 = Except.error 7 :=
  ⟨rfl, rfl, rfl, rfl⟩

/-- C3 amended: after pluck and get succeed, if the tracked model.train
invocation completes without raising then the pipeline returns the
Response produced by ack(Qid, Cids), regardless of the value train
returned; a raise from the tracked train invocation instead propagates
before ack runs. -/
theorem train_ack_after_train_completes (proxyCls : String)
    (pluck : TrackedFn eps Req (Qi × List Ci))
    (get : TrackedFn eps (Qi × List Ci) (Qu × Ch × La))
    (train : TrackedFn eps (Qu × Ch × La) Tr)
    (ack : TrackedFn eps (Qi × List Ci) Res)
    (r1 : Req) (r2 : Qi × List Ci) (r3 : Qu × Ch × La) (w : Tr) (r4 : Res)
    (s1 : CallResult eps (Qi × List Ci)) (s2 : CallResult eps (Qu × Ch × La))
    (s3 : CallResult eps Tr) (s4 : CallResult eps Res)
    (t0 t1 t2 t3 t4 : Nat)
    (h1 : pluck.run r1 t0 = (s1, t1)) (a1 : awaitedOk s1 = some r2)
    (h2 : get.run r2 t1 = (s2, t2)) (a2 : awaitedOk s2 = some r3)
    (h3 : train.run r3 t2 = (s3, t3)) (a3 : awaitedOk s3 = some w)
    (h4 : ack.run r2 t3 = (s4, t4)) (a4 : awaitedOk s4 = some r4) :
    (trainBody proxyCls pluck get train ack r1 t0).1 = Except.ok r4 := by
  have e1 := trackRun_of_awaitedOk proxyCls pluck r1 t0 r2 s1 t1 h1 a1
  have e2 := trackRun_of_awaitedOk proxyCls get r2 t1 r3 s2 t2 h2 a2
  have e3 := trackRun_of_awaitedOk proxyCls train r3 t2 w s3 t3 h3 a3
  have e4 := trackRun_of_awaitedOk proxyCls ack r2 t3 r4 s4 t4 h4 a4
  simp [trainBody, stepBind, e1, e2, e3, e4]

theorem train_ack_after_train_completes_witness :
    (trainBody ("Proxy") tPluck tGet tTrainOk tAck 0 0).1 = Except.ok 99 :=
  train_ack_after_train_completes ("Proxy") tPluck tGet tTrainOk tAck
    0 (1, [2, 3]) (4, 5, 6) 0 99
    (CallResult.sync (1, [2, 3])) (CallResult.async (Except.ok (4, 5, 6)))
    (CallResult.async (Except.ok 0)) (CallResult.sync 99)
    0 1 2 3 4
    rfl rfl rfl rfl rfl rfl rfl rfl

variable {V ResT : Type}

/-- A status mapping: component-contributed keys paired with values. -/
def keys (d : List (String × V)) : List String :=
  d.map Prod.fst

/-- The body of the status pipeline closure: chain the state of each
component in order starting from the empty mapping. The db's chain_state
may read its recorded lap samples (its instance state), so it takes them
as an explicit argument. -/
def statusMap (serverChain codexChain modelChain : List (String × V) → List (String × V))
    (dbChain : List Lap → List (String × V) → List (String × V))
    (laps : List Lap) : List (String × V) :=
  let d2 := serverChain []
  let d3 := codexChain d2
  let d4 := modelChain d3
  let d5 := dbChain laps d4
  d5

/-- The status closure as track() sees it: a plain (unbound) async
function named status whose body builds the status mapping without any
inner track() wrapping and formats it with codex.pulse, taking dur clock
ticks in total. -/
def statusFn (E R : Type)
    (serverChain codexChain modelChain : List (String × V) → List (String × V))
    (dbChain : List Lap → List (String × V) → List (String × V))
    (pulse : List (String × V) → ResT)
    (laps : List Lap) (dur : Nat) : TrackedFn E R ResT :=
  ⟨none, "status",
   fun _ t =>
     (CallResult.async (Except.ok
        (pulse (statusMap serverChain codexChain modelChain dbChain laps))), t + dur)⟩

/-- One tracked invocation of the status route: run the wrapped status
closure through track(), then append the samples it forwarded to db.lap
to the db's recorded laps. Returns the pipeline value, the clock after
the call, and the db's lap record afterwards. -/
def statusTracked (E : Type) (proxyCls : String)
    (serverChain codexChain modelChain : List (String × V) → List (String × V))
    (dbChain : List Lap → List (String × V) → List (String × V))
    (pulse : List (String × V) → ResT)
    (laps : List Lap) (r1 : Req) (t : Nat) (dur : Nat) :
    Except E ResT × Nat × List Lap :=
  match trackRun proxyCls
      (statusFn E Req serverChain codexChain modelChain dbChain pulse laps dur)
      r1 t with
  | (res, t2, emitted) => (res, t2, laps ++ emitted)

/-- C7: every status invocation starts from the empty mapping, threads it
through Server.chain_state, Codex.chain_state, Model.chain_state and
Db.chain_state in that fixed order, and returns Codex.pulse applied to
the final accumulated mapping. -/
theorem status_chain_fixed_order (proxyCls : String)
    (serverChain codexChain modelChain : List (String × V) → List (String × V))
    (dbChain : List Lap → List (String × V) → List (String × V))
    (pulse : List (String × V) → ResT)
    (laps : List Lap) (r1 : Req) (t : Nat) (dur : Nat) :
    (statusTracked eps proxyCls serverChain codexChain modelChain dbChain
        pulse laps r1 t dur).1 =
      Except.ok (pulse (dbChain laps (modelChain (codexChain (serverChain []))))) := by
  simp [statusTracked, statusFn, trackRun, statusMap]

/-- C10: a status invocation forwards exactly one latency sample for the
whole pipeline — the chain_state and pulse calls inside the body are not
individually tracked — and since the status closure is not a bound
method, that sample's owner is the orchestrator's own class name paired
with the closure's name. -/
theorem status_single_lap_proxy_owner (proxyCls : String)
    (serverChain codexChain modelChain : List (String × V) → List (String × V))
    (dbChain : List Lap → List (String × V) → List (String × V))
    (pulse : List (String × V) → ResT)
    (laps : List Lap) (r1 : Req) (t : Nat) (dur : Nat) :
    (statusTracked eps proxyCls serverChain codexChain modelChain dbChain
        pulse laps r1 t dur).2.2 =
      laps ++ [lapOf (dur * 1000) (identOf proxyCls none ("status"))] ∧
    identOf proxyCls none ("status") = (proxyCls, "status") := by
  constructor
  · simp [statusTracked, statusFn, trackRun, ident, identOf, lapOf]
  · rfl

/-- Concrete chain_state functions for evaluating the status pipeline:
each component prepends its own keyed fragment; the db reports the number
of recorded laps, a time-varying value under a fixed key. -/
def egServerChain : List (String × Nat) → List (String × Nat) :=
  fun d => ("server", 1) :: d

def egCodexChain : List (String × Nat) → List (String × Nat) :=
  fun d => ("codex", 2) :: d

def egModelChain : List (String × Nat) → List (String × Nat) :=
  fun d => ("model", 3) :: d

def egDbChain : List Lap → List (String × Nat) → List (String × Nat) :=
  fun laps d => ("db", laps.length) :: d

def egDbChainPure : List Lap → List (String × Nat) → List (String × Nat) :=
  fun _ d => ("db", 0) :: d

/-- C9: two consecutive status invocations with no intervening mutation
of the collaborators — the only state that changes in between is the db's
lap record, appended to by the first invocation's own tracking — produce
mappings with the same key set whenever the db fragment's keys do not
depend on the lap record; when the db fragment is entirely independent of
the lap record (pure chain_state), the two mappings are equal. -/
theorem status_idempotent_keys (proxyCls : String)
    (serverChain codexChain modelChain : List (String × V) → List (String × V))
    (dbChain : List Lap → List (String × V) → List (String × V))
    (pulse : List (String × V) → ResT)
    (laps : List Lap) (r1 : Req) (t : Nat) (dur : Nat)
    (hk : ∀ l1 l2 : List Lap, ∀ d : List (String × V),
      keys (dbChain l1 d) = keys (dbChain l2 d)) :
    keys (statusMap serverChain codexChain modelChain dbChain laps) =
      keys (statusMap serverChain codexChain modelChain dbChain
        (statusTracked eps proxyCls serverChain codexChain modelChain dbChain
          pulse laps r1 t dur).2.2) ∧
    ((∀ l1 l2 : List Lap, ∀ d : List (String × V), dbChain l1 d = dbChain l2 d) →
      statusMap serverChain codexChain modelChain dbChain laps =
        statusMap serverChain codexChain modelChain dbChain
          (statusTracked eps proxyCls serverChain codexChain modelChain dbChain
            pulse laps r1 t dur).2.2) := by
  constructor
  · exact hk laps _ _
  · intro hp
    exact hp laps _ _

theorem status_idempotent_keys_witness :
    keys (statusMap egServerChain egCodexChain egModelChain egDbChain []) =
      keys (statusMap egServerChain egCodexChain egModelChain egDbChain
        (statusTracked Nat ("Proxy") egServerChain egCodexChain
          egModelChain egDbChain (fun d => d.length) [] 0 0 3).2.2) ∧
    statusMap egServerChain egCodexChain egModelChain egDbChainPure [] =
      statusMap egServerChain egCodexChain egModelChain egDbChainPure
        (statusTracked Nat ("Proxy") egServerChain egCodexChain
          egModelChain egDbChainPure (fun d => d.length) [] 0 0 3).2.2 :=
  ⟨(status_idempotent_keys ("Proxy") egServerChain egCodexChain egModelChain egDbChain
      (fun d => d.length) [] 0 0 3 (fun _ _ _ => rfl)).1,
   (status_idempotent_keys ("Proxy") egServerChain egCodexChain egModelChain egDbChainPure
      (fun d => d.length) [] 0 0 3 (fun _ _ _ => rfl)).2 (fun _ _ _ => rfl)⟩

/-- Route kinds of the routes dict built at the end of the constructor. -/
inductive RouteKind where
  | SEARCH
  | TRAIN
  | STATUS
  | ERROR
  deriving DecidableEq, Repr

/-- The five tracked pipeline closures built by the constructor,
identified by name. -/
inductive PipeTag where
  | search
  | train
  | status
  | notFound
  | error
  deriving DecidableEq, Repr

/-- Path bindings supplied by the codex for the four routed kinds. -/
structure CodexPaths where
  SEARCH : String
  TRAIN : String
  STATUS : String
  ERROR : String

/-- The routes dict assembled in the constructor: each route kind mapped
to the codex-supplied path binding paired with the corresponding tracked
pipeline closure. -/
def routesTable (cx : CodexPaths) : RouteKind → String × PipeTag
  | RouteKind.SEARCH => (cx.SEARCH, PipeTag.search)
  | RouteKind.TRAIN => (cx.TRAIN, PipeTag.train)
  | RouteKind.STATUS => (cx.STATUS, PipeTag.status)
  | RouteKind.ERROR => (cx.ERROR, PipeTag.error)

/-- Modelled from the spec: BaseServer.create_app is not under src; per
the listener contract and the aiohttp server test it receives the route
table and, as a separate optional argument, a default not-found handler
for paths matching no table entry. -/
structure ServerApp where
  table : RouteKind → String × PipeTag
  defaultHandler : Option PipeTag

def create_app (table : RouteKind → String × PipeTag)
    (notFoundHandler : Option PipeTag) : ServerApp :=
  ⟨table, notFoundHandler⟩

/-- The single create_app call made at the end of the constructor:
server.create_app(routes) passes the routes dict and nothing else, so no
default not-found handler is supplied. -/
def proxyCreateApp (cx : CodexPaths) : ServerApp :=
  create_app (routesTable cx) none

/-- C2 evidence: the app handed to the listener maps the four route kinds
to their codex path binding and tracked pipeline as claimed, but its
default handler slot is empty — the constructor builds the tracked
not_found closure yet never passes it to create_app, so the not_found
pipeline is not registered as the listener's default handler. -/
theorem proxy_create_app_routes_no_not_found (cx : CodexPaths) :
    (proxyCreateApp cx).table RouteKind.SEARCH = (cx.SEARCH, PipeTag.search) ∧
    (proxyCreateApp cx).table RouteKind.TRAIN = (cx.TRAIN, PipeTag.train) ∧
    (proxyCreateApp cx).table RouteKind.STATUS = (cx.STATUS, PipeTag.status) ∧
    (proxyCreateApp cx).table RouteKind.ERROR = (cx.ERROR, PipeTag.error) ∧
    (proxyCreateApp cx).defaultHandler = none ∧
    (∀ k : RouteKind, (proxyCreateApp cx).table k ≠ (cx.SEARCH, PipeTag.notFound)) := by
  refine ⟨rfl, rfl, rfl, rfl, rfl, ?h⟩
  intro k
  cases k <;> simp [proxyCreateApp, create_app, routesTable]

/-- Lifecycle events of the orchestrator and its listener. -/
inductive LcEvent where
  | serverStart
  | readyWait
  | body (n : Nat)
  | logStop
  | serverExit
  | serverJoin
  deriving DecidableEq, Repr

/-- Trace of Proxy.enter: start the listener. -/
def enterTrace : List LcEvent :=
  [LcEvent.serverStart]

/-- Trace of Proxy.exit: log, request listener shutdown, then join the
listener's task until it has terminated. -/
def exitTrace : List LcEvent :=
  [LcEvent.logStop, LcEvent.serverExit, LcEvent.serverJoin]

/-- Scoped acquisition of the orchestrator: the context manager enters
(start then block on the readiness signal), runs the scope body — which
yields a trace and either a value or a raised error — and on release runs
exit in both cases, re-raising a body error afterwards. -/
def withProxy {gam : Type} (body : List LcEvent × Except eps gam) :
    List LcEvent × Except eps gam :=
  ((enterTrace ++ [LcEvent.readyWait]) ++ body.1 ++ exitTrace, body.2)

/-- C8: scoped acquisition starts the listener and blocks on the
readiness signal before any body event, and on release — whether the body
produced a value or raised — requests listener shutdown via Server.exit
and then blocks on Server.join, in that order, after every body event;
the body's outcome is preserved. -/
theorem scoped_lifecycle {gam : Type} (bt : List LcEvent) (r : Except eps gam) :
    withProxy (bt, r) =
      ([LcEvent.serverStart, LcEvent.readyWait] ++ bt ++
        [LcEvent.logStop, LcEvent.serverExit, LcEvent.serverJoin], r) := rfl

end NBoost
